import Mathlib

/-!
Verification of the renfield-mcp-jellyfin server core
(`src/renfield_mcp_jellyfin/server.py`) against its natural-language
specification.

The embedding is shallow: JSON values are modelled by the inductive `JVal`,
Python dictionaries by insertion-ordered association lists, Python exceptions
by `Except String`, and the single outbound HTTP GET of each tool by an
explicit oracle `JellyfinRequest → JVal`.  Each tool handler returns the pair
of its result and the list of requests it issued, so "issues zero HTTP calls"
and "issues exactly one GET" are directly statable.
-/

namespace Renfield

/-- JSON values as delivered by the Jellyfin REST API (no floats occur in the
fields the server reads). -/
inductive JVal where
  | null
  | bool (b : Bool)
  | int (n : Int)
  | str (s : String)
  | arr (elems : List JVal)
  | obj (pairs : List (String × JVal))

/-- Python truthiness (`bool(v)`) on JSON values: `None`, `False`, `0`, `""`,
`[]`, and an empty dict are falsy. -/
def jTruthy : JVal → Bool
  | .null => false
  | .bool b => b
  | .int n => decide (n ≠ 0)
  | .str s => decide (s ≠ "")
  | .arr xs => !xs.isEmpty
  | .obj kvs => !kvs.isEmpty

/-- Python `a or b`: evaluates to `a` when `a` is truthy, else to `b`. -/
def pyOr (a b : JVal) : JVal :=
  if jTruthy a then a else b

/-- Python `x[0]`: first element of a list, first character of a string
(as a one-character string); raises `IndexError` on an empty sequence and
`TypeError`/`KeyError` on non-indexable values (a dict has no key `0` here). -/
def pyIndex0 : JVal → Except String JVal
  | .arr [] => .error "IndexError"
  | .arr (x :: _) => .ok x
  | .str s => if s = "" then .error "IndexError" else .ok (.str (String.singleton s.front))
  | _ => .error "TypeError"

/-- Python `v.get(k, d)`: defaulted dictionary lookup; raises
`AttributeError` when `v` is not a dict. -/
def pyGetD (v : JVal) (k : String) (d : JVal) : Except String JVal :=
  match v with
  | .obj kvs => .ok ((kvs.lookup k).getD d)
  | _ => .error "AttributeError"

/-- Python `v.get(k)` (default `None`). -/
def pyGet (v : JVal) (k : String) : Except String JVal :=
  pyGetD v k .null

/-- Python iteration `for it in v`: lists yield their elements, strings their
characters, dicts their keys; other values raise `TypeError`. -/
def asIter : JVal → Except String (List JVal)
  | .arr xs => .ok xs
  | .str s => .ok (s.toList.map fun c => JVal.str (String.singleton c))
  | .obj kvs => .ok (kvs.map fun kv => JVal.str kv.1)
  | _ => .error "TypeError"

mutual

/-- Python `repr` of a JSON value (used by `str` on containers). -/
def pyRepr : JVal → String
  | .null => "None"
  | .bool true => "True"
  | .bool false => "False"
  | .int n => toString n
  | .str s => "\x27" ++ s ++ "\x27"
  | .arr xs => "[" ++ pyReprSeq xs ++ "]"
  | .obj kvs => "\x7b" ++ pyReprPairs kvs ++ "\x7d"

/-- Comma-separated `repr` of list elements. -/
def pyReprSeq : List JVal → String
  | [] => ""
  | [x] => pyRepr x
  | x :: y :: rest => pyRepr x ++ ", " ++ pyReprSeq (y :: rest)

/-- Comma-separated `repr` of dict entries. -/
def pyReprPairs : List (String × JVal) → String
  | [] => ""
  | [(k, v)] => "\x27" ++ k ++ "\x27: " ++ pyRepr v
  | (k, v) :: p :: rest => "\x27" ++ k ++ "\x27: " ++ pyRepr v ++ ", " ++ pyReprPairs (p :: rest)

end

/-- Python `str(v)` as used in f-string interpolation. -/
def pyStr : JVal → String
  | .str s => s
  | v => pyRepr v

/-- Python `f"{n:02d}"` for the seconds value: pad a non-negative single-digit
integer with a leading zero (wider or signed values print unpadded, matching
`format` at width 2). -/
def zeroPad2 (n : Int) : String :=
  if 0 ≤ n ∧ n < 10 then "0" ++ toString n else toString n

/-- `_format_duration` (server.py lines 66-73): convert `RunTimeTicks`
(100-nanosecond units) to an `"M:SS"` string; `None` and falsy (zero) ticks
give `None`.  Python `//` is floor division (`Int.fdiv`) and `%` with a
positive modulus is `Int.emod`. -/
def format_duration (ticks : Option Int) : Option String :=
  match ticks with
  | none => none
  | some t =>
    if t = 0 then none
    else
      let totalSeconds := Int.fdiv t 10000000
      let minutes := Int.fdiv totalSeconds 60
      let seconds := Int.emod totalSeconds 60
      some (toString minutes ++ ":" ++ zeroPad2 seconds)

/-- The duration formula as worded in §4.2 of the spec:
`totalSeconds = floor(ticks / 10_000_000)`, `minutes = floor(totalSeconds / 60)`,
`seconds = totalSeconds mod 60` zero-padded to 2 digits; null/zero/falsy ticks
give null. -/
def specFormatDuration (ticks : Option Int) : Option String :=
  match ticks with
  | none => none
  | some t =>
    if t = 0 then none
    else
      some (toString (Int.fdiv (Int.fdiv t 10000000) 60) ++ ":" ++
        zeroPad2 (Int.emod (Int.fdiv t 10000000) 60))

/-- Coercion of a JSON value to the `int | None` argument of
`_format_duration`: Python `bool` is an `int` subtype; other non-integer
values would fail inside the arithmetic with `TypeError`. -/
def durationArg : JVal → Except String (Option Int)
  | .null => .ok none
  | .int n => .ok (some n)
  | .bool b => .ok (some (if b then 1 else 0))
  | _ => .error "TypeError"

/-- Re-embed an optional string as a JSON value (`None` ↦ `null`). -/
def optStr : Option String → JVal
  | none => .null
  | some s => .str s

/-- The three environment-sourced connection parameters
(`JELLYFIN_URL`, `JELLYFIN_API_KEY`, `JELLYFIN_USER_ID`). -/
structure Config where
  url : String
  apiKey : String
  userId : String

/-- `_check_config` (server.py lines 45-53): return the first
`"<NAME> not configured"` error dict in the fixed order URL, API key,
user id; `None` when all three are non-empty (Python string truthiness). -/
def check_config (cfg : Config) : Option JVal :=
  if cfg.url = "" then some (.obj [("error", .str "JELLYFIN_URL not configured")])
  else if cfg.apiKey = "" then some (.obj [("error", .str "JELLYFIN_API_KEY not configured")])
  else if cfg.userId = "" then some (.obj [("error", .str "JELLYFIN_USER_ID not configured")])
  else none

/-- A query-parameter value (`str | int` in the Python signature). -/
inductive PVal where
  | str (s : String)
  | int (n : Int)
deriving DecidableEq

/-- One outbound GET: full URL plus ordered query parameters. -/
structure JellyfinRequest where
  url : String
  params : List (String × PVal)
deriving DecidableEq

/-- `_jellyfin_get` (server.py lines 56-63), request-building part: prefix the
base URL and append the `api_key` parameter after the caller's parameters. -/
def jellyfin_get (cfg : Config) (path : String) (params : List (String × PVal)) :
    JellyfinRequest :=
  { url := cfg.url ++ path, params := params ++ [("api_key", PVal.str cfg.apiKey)] }

/-- The upstream server, abstracted: a response for every request. -/
def Oracle : Type := JellyfinRequest → JVal

/-- `SORT_MAP` (server.py lines 36-42). -/
def SORT_MAP : List (String × String) :=
  [("name", "SortName"), ("added", "DateCreated"), ("year", "PremiereDate"),
   ("rating", "CommunityRating"), ("random", "Random")]

/-- The supported field names of `_format_item` (the keys of its `extractors`
dict, server.py lines 84-104). -/
def FIELD_NAMES : List String :=
  ["id", "name", "artist", "album_artist", "album", "year", "genre", "index",
   "duration", "overview", "child_count", "type", "path", "container",
   "stream_url", "api_stream"]

/-- The `extractors` dict of `_format_item` (server.py lines 84-104): one
extraction rule per supported field name; the catch-all arm is the `KeyError`
a lookup of an unsupported name would raise (never reached, since
`_format_item` guards with `f in extractors`). -/
def extractors (cfg : Config) (r : JVal) : String → Except String JVal
  | "id" => pyGet r "Id"
  | "name" => pyGet r "Name"
  | "artist" => do pyIndex0 (pyOr (← pyGet r "Artists") (.arr [.null]))
  | "album_artist" => pyGet r "AlbumArtist"
  | "album" => pyGet r "Album"
  | "year" => pyGet r "ProductionYear"
  | "genre" => do pyIndex0 (pyOr (← pyGet r "Genres") (.arr [.null]))
  | "index" => pyGet r "IndexNumber"
  | "duration" => do
    let t ← pyGet r "RunTimeTicks"
    let a ← durationArg t
    pure (optStr (format_duration a))
  | "overview" => pyGet r "Overview"
  | "child_count" => pyGet r "ChildCount"
  | "type" => pyGet r "Type"
  | "path" => pyGet r "Path"
  | "container" => do
    let first ← pyIndex0 (pyOr (← pyGet r "MediaSources") (.arr [.obj []]))
    pyGet first "Container"
  | "stream_url" => do
    let first ← pyIndex0 (pyOr (← pyGet r "MediaSources") (.arr [.obj []]))
    pyGet first "Path"
  | "api_stream" => do
    let i ← pyGet r "Id"
    pure (if jTruthy i then
      JVal.str (cfg.url ++ "/Audio/" ++ pyStr i ++ "/universal?api_key=" ++ cfg.apiKey)
    else JVal.null)
  | _ => .error "KeyError"

/-- Python `result[f] = val` on an insertion-ordered dict: replace the value
in place when the key exists, else append the new entry. -/
def dictInsert : List (String × JVal) → String → JVal → List (String × JVal)
  | [], k, v => [(k, v)]
  | (k1, v1) :: rest, k, v =>
    if k1 = k then (k1, v) :: rest else (k1, v1) :: dictInsert rest k v

/-- Python `val is None` on a JSON value. -/
def isNull : JVal → Bool
  | .null => true
  | _ => false

/-- The `for f in fields` loop of `_format_item` (server.py lines 105-111)
with the accumulated `result` dict made explicit: skip names not in the
vocabulary, extract, and insert only values that are not `None`. -/
def format_item_go (cfg : Config) (raw : JVal) (acc : List (String × JVal)) :
    List String → Except String (List (String × JVal))
  | [] => .ok acc
  | f :: fs =>
    if f ∈ FIELD_NAMES then
      match extractors cfg raw f with
      | .error e => .error e
      | .ok v =>
        if isNull v then format_item_go cfg raw acc fs
        else format_item_go cfg raw (dictInsert acc f v) fs
    else format_item_go cfg raw acc fs

/-- `_format_item` (server.py lines 76-111): project a raw Jellyfin item onto
the requested field names. -/
def format_item (cfg : Config) (raw : JVal) (fields : List String) :
    Except String (List (String × JVal)) :=
  format_item_go cfg raw [] fields

/-- Whether a requested field name contributes a key to the output of
`_format_item`: it must be in the vocabulary and extract to a non-null value. -/
def presentField (cfg : Config) (raw : JVal) (f : String) : Bool :=
  decide (f ∈ FIELD_NAMES) &&
    (match extractors cfg raw f with
     | .ok v => !(isNull v)
     | .error _ => false)

/-- The list comprehension `[_format_item(it, fields) for it in items]`
shared by the listing tools: project every raw item, propagating the first
exception. -/
def projectList (cfg : Config) (fields : List String) : List JVal → Except String (List JVal)
  | [] => .ok []
  | it :: rest =>
    match format_item cfg it fields with
    | .error e => .error e
    | .ok kvs =>
      match projectList cfg fields rest with
      | .error e => .error e
      | .ok tail => .ok (JVal.obj kvs :: tail)

/-- The shared envelope epilogue of the listing tools:
`items = [_format_item(it, FIELDS) for it in data.get("Items", [])]` followed
by `return (dict "total" (data.get "TotalRecordCount" 0)) ("items" items)`. -/
def envelopeItems (cfg : Config) (data : JVal) (fields : List String) : Except String JVal :=
  match pyGetD data "Items" (.arr []) with
  | .error e => .error e
  | .ok itemsJ =>
    match asIter itemsJ with
    | .error e => .error e
    | .ok raws =>
      match projectList cfg fields raws with
      | .error e => .error e
      | .ok items =>
        match pyGetD data "TotalRecordCount" (.int 0) with
        | .error e => .error e
        | .ok total => .ok (JVal.obj [("total", total), ("items", JVal.arr items)])

/-- The `if err := _check_config(): return err` prologue of every tool:
short-circuit with the error dict and no HTTP call, else run the body. -/
def withConfigGate (cfg : Config)
    (body : Unit → Except String JVal × List JellyfinRequest) :
    Except String JVal × List JellyfinRequest :=
  match check_config cfg with
  | some err => (Except.ok err, [])
  | none => body ()

/-- The GET issued by `search_media` (server.py lines 137-145), including the
clamp of `limit` into 1..50. -/
def searchMediaRequest (cfg : Config) (query ty : String) (limit : Int) : JellyfinRequest :=
  let lim := max 1 (min limit 50)
  jellyfin_get cfg "/Items"
    [("searchTerm", .str query), ("IncludeItemTypes", .str ty),
     ("Recursive", .str "true"), ("Limit", .int lim),
     ("Fields", .str "Genres,Artists,AlbumArtist,Album,ProductionYear,RunTimeTicks")]

/-- The `field_map` of `search_media` (server.py lines 146-152). -/
def searchFieldMap : List (String × List String) :=
  [("Audio", ["id", "name", "artist", "album", "year", "duration", "api_stream"]),
   ("MusicAlbum", ["id", "name", "album_artist", "year", "genre"]),
   ("MusicArtist", ["id", "name", "genre", "overview"]),
   ("Movie", ["id", "name", "year", "genre", "overview"]),
   ("Series", ["id", "name", "year", "genre", "overview"])]

/-- `search_media` (server.py lines 121-155). -/
def search_media (cfg : Config) (oracle : Oracle) (query ty : String) (limit : Int) :
    Except String JVal × List JellyfinRequest :=
  withConfigGate cfg fun _ =>
    let req := searchMediaRequest cfg query ty limit
    let data := oracle req
    let fields := (searchFieldMap.lookup ty).getD ["id", "name", "type", "year"]
    (envelopeItems cfg data fields, [req])

/-- The GET issued by `list_albums` (server.py lines 176-190): clamp into
1..100, shared sort table with default `SortName`, `Descending` exactly for
`added` and `year`, and artist/genre filters added only when non-empty. -/
def listAlbumsRequest (cfg : Config) (artist genre sort : String) (limit : Int) :
    JellyfinRequest :=
  let lim := max 1 (min limit 100)
  let params : List (String × PVal) :=
    [("IncludeItemTypes", .str "MusicAlbum"), ("Recursive", .str "true"),
     ("Limit", .int lim), ("SortBy", .str ((SORT_MAP.lookup sort).getD "SortName")),
     ("SortOrder", .str (if sort = "added" ∨ sort = "year" then "Descending" else "Ascending")),
     ("Fields", .str "Genres,Artists,AlbumArtist,ProductionYear")]
  let params := params ++ (if artist = "" then [] else [("Artists", PVal.str artist)])
  let params := params ++ (if genre = "" then [] else [("Genres", PVal.str genre)])
  jellyfin_get cfg ("/Users/" ++ cfg.userId ++ "/Items") params

/-- `list_albums` (server.py lines 158-195). -/
def list_albums (cfg : Config) (oracle : Oracle) (artist genre sort : String) (limit : Int) :
    Except String JVal × List JellyfinRequest :=
  withConfigGate cfg fun _ =>
    let req := listAlbumsRequest cfg artist genre sort limit
    let data := oracle req
    (envelopeItems cfg data ["id", "name", "album_artist", "year", "genre"], [req])

/-- The GET issued by `list_artists` (server.py lines 208-213): clamp into
1..200. -/
def listArtistsRequest (cfg : Config) (limit : Int) : JellyfinRequest :=
  let lim := max 1 (min limit 200)
  jellyfin_get cfg "/Artists" [("Limit", .int lim), ("Fields", .str "Genres,Overview")]

/-- `list_artists` (server.py lines 198-218). -/
def list_artists (cfg : Config) (oracle : Oracle) (limit : Int) :
    Except String JVal × List JellyfinRequest :=
  withConfigGate cfg fun _ =>
    let req := listArtistsRequest cfg limit
    let data := oracle req
    (envelopeItems cfg data ["id", "name", "genre", "overview"], [req])

/-- The GET issued by `get_album_tracks` (server.py lines 231-237). -/
def getAlbumTracksRequest (cfg : Config) (albumId : String) : JellyfinRequest :=
  jellyfin_get cfg ("/Users/" ++ cfg.userId ++ "/Items")
    [("ParentId", .str albumId), ("IncludeItemTypes", .str "Audio"),
     ("SortBy", .str "IndexNumber"), ("Fields", .str "Artists,Album,RunTimeTicks")]

/-- `get_album_tracks` (server.py lines 221-242). -/
def get_album_tracks (cfg : Config) (oracle : Oracle) (albumId : String) :
    Except String JVal × List JellyfinRequest :=
  withConfigGate cfg fun _ =>
    let req := getAlbumTracksRequest cfg albumId
    let data := oracle req
    (envelopeItems cfg data ["id", "name", "index", "artist", "duration", "api_stream"], [req])

/-- The GET issued by `get_artist_albums` (server.py lines 255-263). -/
def getArtistAlbumsRequest (cfg : Config) (artistId : String) : JellyfinRequest :=
  jellyfin_get cfg ("/Users/" ++ cfg.userId ++ "/Items")
    [("ArtistIds", .str artistId), ("IncludeItemTypes", .str "MusicAlbum"),
     ("Recursive", .str "true"), ("SortBy", .str "PremiereDate"),
     ("SortOrder", .str "Descending"), ("Fields", .str "Genres,ProductionYear")]

/-- `get_artist_albums` (server.py lines 245-268). -/
def get_artist_albums (cfg : Config) (oracle : Oracle) (artistId : String) :
    Except String JVal × List JellyfinRequest :=
  withConfigGate cfg fun _ =>
    let req := getArtistAlbumsRequest cfg artistId
    let data := oracle req
    (envelopeItems cfg data ["id", "name", "year", "genre"], [req])

/-- The GET issued by `list_genres` (server.py line 277). -/
def listGenresRequest (cfg : Config) : JellyfinRequest :=
  jellyfin_get cfg "/MusicGenres" [("Limit", .int 50)]

/-- The per-item dict literal of `list_genres` (server.py line 278):
`(dict "id" (it.get "Id")) ("name" (it.get "Name"))` — built directly, not
through `_format_item`, so `None` values are kept. -/
def genreProj (it : JVal) : Except String JVal := do
  let i ← pyGet it "Id"
  let n ← pyGet it "Name"
  pure (JVal.obj [("id", i), ("name", n)])

/-- The list comprehension of `list_genres` over the upstream items. -/
def genreProjList : List JVal → Except String (List JVal)
  | [] => .ok []
  | it :: rest =>
    match genreProj it with
    | .error e => .error e
    | .ok x =>
      match genreProjList rest with
      | .error e => .error e
      | .ok tail => .ok (x :: tail)

/-- `list_genres` (server.py lines 271-279). -/
def list_genres (cfg : Config) (oracle : Oracle) :
    Except String JVal × List JellyfinRequest :=
  withConfigGate cfg fun _ =>
    let req := listGenresRequest cfg
    let data := oracle req
    ((match pyGetD data "Items" (.arr []) with
      | .error e => .error e
      | .ok itemsJ =>
        match asIter itemsJ with
        | .error e => .error e
        | .ok raws =>
          match genreProjList raws with
          | .error e => .error e
          | .ok items =>
            match pyGetD data "TotalRecordCount" (.int 0) with
            | .error e => .error e
            | .ok total => .ok (JVal.obj [("total", total), ("items", JVal.arr items)])),
     [req])

/-- The GET issued by `get_recent` (server.py lines 296-303): clamp into
1..50, `/Users/{uid}/Items/Latest`. -/
def getRecentRequest (cfg : Config) (ty : String) (limit : Int) : JellyfinRequest :=
  let lim := max 1 (min limit 50)
  jellyfin_get cfg ("/Users/" ++ cfg.userId ++ "/Items/Latest")
    [("IncludeItemTypes", .str ty), ("Limit", .int lim),
     ("Fields", .str "Genres,Artists,AlbumArtist,Album,ProductionYear")]

/-- The `field_map` of `get_recent` (server.py lines 306-311). -/
def recentFieldMap : List (String × List String) :=
  [("Audio", ["id", "name", "artist", "album", "year"]),
   ("MusicAlbum", ["id", "name", "album_artist", "year", "genre"]),
   ("Movie", ["id", "name", "year", "genre"]),
   ("Series", ["id", "name", "year", "genre"])]

/-- Line 305 of server.py:
`raw_items = data if isinstance(data, list) else data.get("Items", [])`,
followed by iteration over the result. -/
def recentRawItems (data : JVal) : Except String (List JVal) :=
  match data with
  | .arr xs => .ok xs
  | _ =>
    match pyGetD data "Items" (.arr []) with
    | .error e => .error e
    | .ok itemsJ => asIter itemsJ

/-- The projection-and-envelope tail of `get_recent` (server.py lines
305-314): `total` is `len(items)`, not a server-reported count. -/
def recentBody (cfg : Config) (data : JVal) (fields : List String) : Except String JVal :=
  match recentRawItems data with
  | .error e => .error e
  | .ok raws =>
    match projectList cfg fields raws with
    | .error e => .error e
    | .ok items =>
      .ok (JVal.obj [("total", JVal.int items.length), ("items", JVal.arr items)])

/-- `get_recent` (server.py lines 282-314). -/
def get_recent (cfg : Config) (oracle : Oracle) (ty : String) (limit : Int) :
    Except String JVal × List JellyfinRequest :=
  withConfigGate cfg fun _ =>
    let req := getRecentRequest cfg ty limit
    let data := oracle req
    let fields := (recentFieldMap.lookup ty).getD ["id", "name", "type", "year"]
    (recentBody cfg data fields, [req])

/-- The GET issued by `get_favorites` (server.py lines 327-335): clamp into
1..100. -/
def getFavoritesRequest (cfg : Config) (limit : Int) : JellyfinRequest :=
  let lim := max 1 (min limit 100)
  jellyfin_get cfg ("/Users/" ++ cfg.userId ++ "/Items")
    [("IncludeItemTypes", .str "Audio,MusicAlbum"), ("Recursive", .str "true"),
     ("Filters", .str "IsFavorite"), ("Limit", .int lim),
     ("Fields", .str "Genres,Artists,Album,ProductionYear,RunTimeTicks")]

/-- `get_favorites` (server.py lines 317-340). -/
def get_favorites (cfg : Config) (oracle : Oracle) (limit : Int) :
    Except String JVal × List JellyfinRequest :=
  withConfigGate cfg fun _ =>
    let req := getFavoritesRequest cfg limit
    let data := oracle req
    (envelopeItems cfg data ["id", "name", "type", "artist", "album", "year", "duration"], [req])

/-- The GET issued by `get_playlists` (server.py lines 353-360): clamp into
1..100. -/
def getPlaylistsRequest (cfg : Config) (limit : Int) : JellyfinRequest :=
  let lim := max 1 (min limit 100)
  jellyfin_get cfg ("/Users/" ++ cfg.userId ++ "/Items")
    [("IncludeItemTypes", .str "Playlist"), ("Recursive", .str "true"),
     ("Limit", .int lim), ("Fields", .str "ChildCount,Overview")]

/-- `get_playlists` (server.py lines 343-365). -/
def get_playlists (cfg : Config) (oracle : Oracle) (limit : Int) :
    Except String JVal × List JellyfinRequest :=
  withConfigGate cfg fun _ =>
    let req := getPlaylistsRequest cfg limit
    let data := oracle req
    (envelopeItems cfg data ["id", "name", "child_count", "overview"], [req])

/-- The GET issued by `list_movies` (server.py lines 387-398): clamp into
1..100, sort table with default `DateCreated`, `Descending` exactly for
`added`, `year`, `rating`, and a genre filter added only when non-empty. -/
def listMoviesRequest (cfg : Config) (genre sort : String) (limit : Int) : JellyfinRequest :=
  let lim := max 1 (min limit 100)
  let params : List (String × PVal) :=
    [("IncludeItemTypes", .str "Movie"), ("Recursive", .str "true"),
     ("Limit", .int lim), ("SortBy", .str ((SORT_MAP.lookup sort).getD "DateCreated")),
     ("SortOrder", .str (if sort = "added" ∨ sort = "year" ∨ sort = "rating" then "Descending" else "Ascending")),
     ("Fields", .str "Genres,ProductionYear,Overview,CommunityRating")]
  let params := params ++ (if genre = "" then [] else [("Genres", PVal.str genre)])
  jellyfin_get cfg ("/Users/" ++ cfg.userId ++ "/Items") params

/-- `list_movies` (server.py lines 371-404). -/
def list_movies (cfg : Config) (oracle : Oracle) (genre sort : String) (limit : Int) :
    Except String JVal × List JellyfinRequest :=
  withConfigGate cfg fun _ =>
    let req := listMoviesRequest cfg genre sort limit
    let data := oracle req
    (envelopeItems cfg data ["id", "name", "year", "genre", "overview"], [req])

/-- The GET issued by `list_series` (server.py lines 423-434): same rules as
`list_movies` with item type `Series`. -/
def listSeriesRequest (cfg : Config) (genre sort : String) (limit : Int) : JellyfinRequest :=
  let lim := max 1 (min limit 100)
  let params : List (String × PVal) :=
    [("IncludeItemTypes", .str "Series"), ("Recursive", .str "true"),
     ("Limit", .int lim), ("SortBy", .str ((SORT_MAP.lookup sort).getD "DateCreated")),
     ("SortOrder", .str (if sort = "added" ∨ sort = "year" ∨ sort = "rating" then "Descending" else "Ascending")),
     ("Fields", .str "Genres,ProductionYear,Overview,CommunityRating")]
  let params := params ++ (if genre = "" then [] else [("Genres", PVal.str genre)])
  jellyfin_get cfg ("/Users/" ++ cfg.userId ++ "/Items") params

/-- `list_series` (server.py lines 407-440). -/
def list_series (cfg : Config) (oracle : Oracle) (genre sort : String) (limit : Int) :
    Except String JVal × List JellyfinRequest :=
  withConfigGate cfg fun _ =>
    let req := listSeriesRequest cfg genre sort limit
    let data := oracle req
    (envelopeItems cfg data ["id", "name", "year", "genre", "overview"], [req])

/-- The GET issued by `get_stream_url` (server.py lines 456-459). -/
def getStreamUrlRequest (cfg : Config) (itemId : String) : JellyfinRequest :=
  jellyfin_get cfg ("/Users/" ++ cfg.userId ++ "/Items/" ++ itemId)
    [("Fields", .str "MediaSources,Path")]

/-- `get_stream_url` (server.py lines 446-460): single-object projection. -/
def get_stream_url (cfg : Config) (oracle : Oracle) (itemId : String) :
    Except String JVal × List JellyfinRequest :=
  withConfigGate cfg fun _ =>
    let req := getStreamUrlRequest cfg itemId
    let data := oracle req
    ((match format_item cfg data ["id", "name", "stream_url", "container", "api_stream"] with
      | .error e => .error e
      | .ok kvs => .ok (JVal.obj kvs)), [req])

/-- The GET issued by `library_stats` (server.py line 469). -/
def libraryStatsRequest (cfg : Config) : JellyfinRequest :=
  jellyfin_get cfg "/Items/Counts" []

/-- `library_stats` (server.py lines 463-477): fixed reshape of six counts,
each defaulting to 0. -/
def library_stats (cfg : Config) (oracle : Oracle) :
    Except String JVal × List JellyfinRequest :=
  withConfigGate cfg fun _ =>
    let req := libraryStatsRequest cfg
    let data := oracle req
    ((match pyGetD data "SongCount" (.int 0) with
      | .error e => .error e
      | .ok songs =>
        match pyGetD data "AlbumCount" (.int 0) with
        | .error e => .error e
        | .ok albums =>
          match pyGetD data "ArtistCount" (.int 0) with
          | .error e => .error e
          | .ok artists =>
            match pyGetD data "MovieCount" (.int 0) with
            | .error e => .error e
            | .ok movies =>
              match pyGetD data "SeriesCount" (.int 0) with
              | .error e => .error e
              | .ok series =>
                match pyGetD data "EpisodeCount" (.int 0) with
                | .error e => .error e
                | .ok episodes =>
                  .ok (JVal.obj [("songs", songs), ("albums", albums),
                    ("artists", artists), ("movies", movies),
                    ("series", series), ("episodes", episodes)])),
     [req])

/-- A fully populated configuration used by concrete evaluations. -/
def cfgDemo : Config :=
  { url := "http://jellyfin:8096", apiKey := "k123", userId := "u1" }

/-- A configuration with an empty base URL. -/
def cfgNoUrl : Config :=
  { url := "", apiKey := "k123", userId := "u1" }

/-- An upstream that returns `null` for every request. -/
def nullOracle : Oracle := fun _ => JVal.null

/-- A typical raw Jellyfin audio item. -/
def rawSong : JVal :=
  JVal.obj [("Id", JVal.str "1"), ("Name", JVal.str "Song A"),
    ("Artists", JVal.arr [JVal.str "Artist X"]), ("Album", JVal.str "Album Y"),
    ("ProductionYear", JVal.int 2020), ("RunTimeTicks", JVal.int 2400000000)]

/-- A raw item carrying only an `Id`. -/
def rawIdOnly : JVal := JVal.obj [("Id", JVal.str "x")]

/-- A raw item whose `Id` is present but the empty (falsy) string. -/
def rawEmptyId : JVal := JVal.obj [("Id", JVal.str "")]

/-- The projection of `rawSong` through the five `get_recent` audio fields. -/
def recentSongItem : JVal :=
  JVal.obj [("id", JVal.str "1"), ("name", JVal.str "Song A"),
    ("artist", JVal.str "Artist X"), ("album", JVal.str "Album Y"),
    ("year", JVal.int 2020)]

/-- An upstream answering every request with a bare array of one song. -/
def bareArrayOracle : Oracle := fun _ => JVal.arr [rawSong]

/-- An upstream answering every request with an `Items`/`TotalRecordCount`
envelope whose reported count (99) disagrees with the item count (1). -/
def envelopeOracle : Oracle :=
  fun _ => JVal.obj [("Items", JVal.arr [rawSong]), ("TotalRecordCount", JVal.int 99)]

/-- An upstream genre envelope whose single item has no `Id` key. -/
def genresOracle : Oracle :=
  fun _ => JVal.obj [("Items", JVal.arr [JVal.obj [("Name", JVal.str "Rock")]]),
    ("TotalRecordCount", JVal.int 5)]

/-- Association-list lookup distributes over append. -/
theorem lookup_append_eq {α β : Type} [BEq α] (l₁ l₂ : List (α × β)) (k : α) :
    (l₁ ++ l₂).lookup k = ((l₁.lookup k).orElse fun _ => l₂.lookup k) := by
  induction l₁ with
  | nil => simp [List.lookup]
  | cons hd tl ih =>
    obtain ⟨a, b⟩ := hd
    cases h : k == a <;> simp [List.lookup, h, ih]

/-- A successful association-list lookup exhibits a member. -/
theorem lookup_mem {α β : Type} [BEq α] [LawfulBEq α] {l : List (α × β)} {k : α} {v : β}
    (h : l.lookup k = some v) : (k, v) ∈ l := by
  induction l with
  | nil => simp [List.lookup] at h
  | cons hd tl ih =>
    obtain ⟨a, b⟩ := hd
    cases hab : k == a
    · simp [List.lookup, hab] at h
      exact List.mem_cons_of_mem _ (ih h)
    · simp [List.lookup, hab] at h
      have hka : k = a := eq_of_beq hab
      subst hka
      subst h
      exact List.mem_cons_self _ _

/-- When the gate reports a missing configuration value, every tool body is
skipped. -/
theorem withConfigGate_some {cfg : Config} {err : JVal}
    (body : Unit → Except String JVal × List JellyfinRequest)
    (h : check_config cfg = some err) :
    withConfigGate cfg body = (Except.ok err, []) := by
  unfold withConfigGate
  rw [h]

/-- When the gate passes, a tool runs its body. -/
theorem withConfigGate_none {cfg : Config}
    (body : Unit → Except String JVal × List JellyfinRequest)
    (h : check_config cfg = none) :
    withConfigGate cfg body = body () := by
  unfold withConfigGate
  rw [h]

/-- `isNull` decides equality with the null value. -/
theorem isNull_iff (v : JVal) : isNull v = true ↔ v = JVal.null := by
  cases v <;> simp [isNull]

/-- Membership after a dict insertion: an old entry or the inserted one. -/
theorem mem_dictInsert {d : List (String × JVal)} {k0 : String} {v0 : JVal}
    {p : String × JVal} (hp : p ∈ dictInsert d k0 v0) : p ∈ d ∨ p = (k0, v0) := by
  induction d with
  | nil =>
    simp only [dictInsert] at hp
    exact Or.inr (List.mem_singleton.mp hp)
  | cons hd tl ih =>
    obtain ⟨k1, v1⟩ := hd
    simp only [dictInsert] at hp
    by_cases hk : k1 = k0
    · rw [if_pos hk] at hp
      rcases List.mem_cons.mp hp with h | h
      · exact Or.inr (by rw [h, hk])
      · exact Or.inl (List.mem_cons_of_mem _ h)
    · rw [if_neg hk] at hp
      rcases List.mem_cons.mp hp with h | h
      · exact Or.inl (h ▸ List.mem_cons_self _ _)
      · rcases ih h with h1 | h1
        · exact Or.inl (List.mem_cons_of_mem _ h1)
        · exact Or.inr h1

/-- Inserting a fresh key appends the entry at the end (dict insertion
order). -/
theorem dictInsert_of_lookup_none :
    ∀ (d : List (String × JVal)) (k : String) (v : JVal),
      d.lookup k = none → dictInsert d k v = d ++ [(k, v)] := by
  intro d k v
  induction d with
  | nil => intro _; rfl
  | cons hd tl ih =>
    obtain ⟨k1, v1⟩ := hd
    intro h
    simp only [List.lookup] at h
    cases hk : (k == k1) with
    | true => rw [hk] at h; cases h
    | false =>
      rw [hk] at h
      have hne : k1 ≠ k := fun he => by rw [he, beq_self_eq_true] at hk; cases hk
      simp only [dictInsert, if_neg hne, ih h, List.cons_append]

/-- Every entry of the dict built by the `_format_item` loop is either an
original entry of the accumulator or the non-null extraction of a vocabulary
field. -/
theorem format_item_go_mem (cfg : Config) (raw : JVal) :
    ∀ (fields : List String) (acc out : List (String × JVal)),
      format_item_go cfg raw acc fields = Except.ok out →
      ∀ k v, (k, v) ∈ out →
        (k, v) ∈ acc ∨
          (k ∈ FIELD_NAMES ∧ extractors cfg raw k = Except.ok v ∧ v ≠ JVal.null) := by
  intro fields
  induction fields with
  | nil =>
    intro acc out h k v hm
    simp only [format_item_go] at h
    injection h with h
    subst h
    exact Or.inl hm
  | cons f fs ih =>
    intro acc out h k v hm
    simp only [format_item_go] at h
    by_cases hf : f ∈ FIELD_NAMES
    · rw [if_pos hf] at h
      cases hex : extractors cfg raw f with
      | error e => rw [hex] at h; cases h
      | ok val =>
        simp only [hex] at h
        by_cases hnull : isNull val = true
        · rw [if_pos hnull] at h
          exact ih acc out h k v hm
        · rw [if_neg hnull] at h
          rcases ih (dictInsert acc f val) out h k v hm with hin | hgood
          · rcases mem_dictInsert hin with hin' | heq
            · exact Or.inl hin'
            · injection heq with h1 h2
              subst h1
              subst h2
              exact Or.inr ⟨hf, hex, fun hv => hnull ((isNull_iff _).mpr hv)⟩
          · exact Or.inr hgood
    · rw [if_neg hf] at h
      exact ih acc out h k v hm

/-- Filtering the requested names to the vocabulary does not change the
result of the `_format_item` loop: unknown names are skipped without error. -/
theorem format_item_go_filter (cfg : Config) (raw : JVal) :
    ∀ (fields : List String) (acc : List (String × JVal)),
      format_item_go cfg raw acc (fields.filter fun f => decide (f ∈ FIELD_NAMES)) =
        format_item_go cfg raw acc fields := by
  intro fields
  induction fields with
  | nil => intro acc; rfl
  | cons f fs ih =>
    intro acc
    rw [List.filter_cons]
    by_cases hf : f ∈ FIELD_NAMES
    · rw [if_pos (by simpa using hf)]
      simp only [format_item_go]
      rw [if_pos hf, if_pos hf]
      cases hex : extractors cfg raw f with
      | error e => simp [hex]
      | ok val =>
        simp only [hex]
        by_cases hnull : isNull val = true
        · rw [if_pos hnull, if_pos hnull, ih]
        · rw [if_neg hnull, if_neg hnull, ih]
    · rw [if_neg (by simpa using hf)]
      simp only [format_item_go]
      rw [if_neg hf, ih]

/-- The key order of the dict built by the `_format_item` loop, for
duplicate-free requested names with keys fresh for the accumulator. -/
theorem format_item_go_keys (cfg : Config) (raw : JVal) :
    ∀ (fields : List String) (acc out : List (String × JVal)),
      fields.Nodup →
      (∀ f ∈ fields, acc.lookup f = none) →
      format_item_go cfg raw acc fields = Except.ok out →
      out.map Prod.fst = acc.map Prod.fst ++ fields.filter (presentField cfg raw) := by
  intro fields
  induction fields with
  | nil =>
    intro acc out _ _ h
    simp only [format_item_go] at h
    injection h with h
    subst h
    simp
  | cons f fs ih =>
    intro acc out hnd hacc h
    obtain ⟨hf_notin, hfs_nd⟩ := List.nodup_cons.mp hnd
    simp only [format_item_go] at h
    by_cases hf : f ∈ FIELD_NAMES
    · rw [if_pos hf] at h
      cases hex : extractors cfg raw f with
      | error e => rw [hex] at h; cases h
      | ok val =>
        simp only [hex] at h
        by_cases hnull : isNull val = true
        · rw [if_pos hnull] at h
          have hres := ih acc out hfs_nd (fun g hg => hacc g (List.mem_cons_of_mem _ hg)) h
          have hpf : presentField cfg raw f = false := by
            simp [presentField, hex, hnull]
          rw [hres, List.filter_cons, if_neg (by simp [hpf])]
        · rw [if_neg hnull] at h
          have hlk : acc.lookup f = none := hacc f (List.mem_cons_self _ _)
          rw [dictInsert_of_lookup_none _ _ _ hlk] at h
          have hacc' : ∀ g ∈ fs, (acc ++ [(f, val)]).lookup g = none := by
            intro g hg
            rw [lookup_append_eq]
            have h1 : acc.lookup g = none := hacc g (List.mem_cons_of_mem _ hg)
            have h2 : (g == f) = false :=
              beq_eq_false_iff_ne.mpr fun he => hf_notin (he ▸ hg)
            simp [h1, List.lookup, h2]
          have hres := ih (acc ++ [(f, val)]) out hfs_nd hacc' h
          have hpf : presentField cfg raw f = true := by
            simp [presentField, hex, hnull, hf]
          rw [hres, List.filter_cons, if_pos (by simp [hpf]), List.map_append]
          simp
    · rw [if_neg hf] at h
      have hres := ih acc out hfs_nd (fun g hg => hacc g (List.mem_cons_of_mem _ hg)) h
      have hpf : presentField cfg raw f = false := by
        simp [presentField, hf]
      rw [hres, List.filter_cons, if_neg (by simp [hpf])]

/-- Projection preserves the item count. -/
theorem projectList_length (cfg : Config) (fields : List String) :
    ∀ (xs ys : List JVal), projectList cfg fields xs = Except.ok ys →
      ys.length = xs.length := by
  intro xs
  induction xs with
  | nil =>
    intro ys h
    simp only [projectList] at h
    injection h with h
    subst h
    rfl
  | cons it rest ih =>
    intro ys h
    simp only [projectList] at h
    cases h1 : format_item cfg it fields with
    | error e => rw [h1] at h; cases h
    | ok kvs =>
      rw [h1] at h
      cases h2 : projectList cfg fields rest with
      | error e => rw [h2] at h; cases h
      | ok tail =>
        rw [h2] at h
        injection h with h
        subst h
        simp [ih tail h2]

/-- The clamp `max lo (min l hi)` lands in `[lo, hi]` and is the identity on
in-range values. -/
theorem clamp_spec (lo hi l : Int) (hlohi : lo ≤ hi) :
    lo ≤ max lo (min l hi) ∧ max lo (min l hi) ≤ hi ∧
      (lo ≤ l → l ≤ hi → max lo (min l hi) = l) := by
  refine ⟨le_max_left _ _, max_le hlohi (min_le_right _ _), fun h1 h2 => ?_⟩
  rw [min_eq_left h2, max_eq_right h1]

/-- The artist extractor yields `None` when `Artists` is missing, null, or
the empty list. -/
theorem extract_artist_null (cfg : Config) (kvs : List (String × JVal))
    (h : (kvs.lookup "Artists").getD JVal.null = JVal.null ∨
      (kvs.lookup "Artists").getD JVal.null = JVal.arr []) :
    extractors cfg (JVal.obj kvs) "artist" = Except.ok JVal.null := by
  have base : extractors cfg (JVal.obj kvs) "artist" =
      pyIndex0 (pyOr ((kvs.lookup "Artists").getD JVal.null) (JVal.arr [JVal.null])) := rfl
  rw [base]
  rcases h with h | h <;> rw [h] <;> rfl

/-- A field whose extraction is `None` contributes nothing to the loop. -/
theorem format_item_go_skip {cfg : Config} {raw : JVal} {f : String}
    (acc : List (String × JVal)) (fs : List String) (hf : f ∈ FIELD_NAMES)
    (hex : extractors cfg raw f = Except.ok JVal.null) :
    format_item_go cfg raw acc (f :: fs) = format_item_go cfg raw acc fs := by
  simp only [format_item_go]
  rw [if_pos hf, hex]
  rfl

/-- C1: `_format_item` returns a mapping that contains a key only if the key
is in the fixed extraction vocabulary and its extracted value is non-null;
a null/missing extracted value (including `Artists` being an empty or missing
list for the `artist` field) causes the key to be omitted entirely, no key is
ever emitted with value null, and requested names outside the vocabulary are
silently ignored with no error (filtering them away changes nothing). -/
theorem c1_format_item_projection :
    (∀ (cfg : Config) (raw : JVal) (fields : List String) (out : List (String × JVal)),
        format_item cfg raw fields = Except.ok out →
        ∀ k v, (k, v) ∈ out →
          k ∈ FIELD_NAMES ∧ extractors cfg raw k = Except.ok v ∧ v ≠ JVal.null) ∧
    (∀ (cfg : Config) (kvs : List (String × JVal)) (fields : List String)
        (out : List (String × JVal)),
        format_item cfg (JVal.obj kvs) fields = Except.ok out →
        ((kvs.lookup "Artists").getD JVal.null = JVal.null ∨
          (kvs.lookup "Artists").getD JVal.null = JVal.arr []) →
        out.lookup "artist" = none) ∧
    (∀ (cfg : Config) (raw : JVal) (fields : List String),
        format_item cfg raw (fields.filter fun f => decide (f ∈ FIELD_NAMES)) =
          format_item cfg raw fields) := by
  refine ⟨?_, ?_, ?_⟩
  · intro cfg raw fields out h k v hm
    rcases format_item_go_mem cfg raw fields [] out h k v hm with hin | hgood
    · cases hin
    · exact hgood
  · intro cfg kvs fields out h hA
    cases hl : out.lookup "artist" with
    | none => rfl
    | some v =>
      have hm := lookup_mem hl
      rcases format_item_go_mem cfg (JVal.obj kvs) fields [] out h "artist" v hm
        with hin | ⟨_, hex, hne⟩
      · cases hin
      · rw [extract_artist_null cfg kvs hA] at hex
        injection hex with hex
        exact absurd hex.symm hne
  · intro cfg raw fields
    exact format_item_go_filter cfg raw fields []

/-- Witness for C1 at a concrete item: the `id` key produced from
`(dict "Id" "x")` with the unknown name `bogus` requested alongside. -/
theorem c1_format_item_projection_witness :
    "id" ∈ FIELD_NAMES ∧ extractors cfgDemo rawIdOnly "id" = Except.ok (JVal.str "x") ∧
      JVal.str "x" ≠ JVal.null :=
  c1_format_item_projection.1 cfgDemo rawIdOnly ["id", "bogus"] [("id", JVal.str "x")]
    rfl "id" (JVal.str "x") (List.mem_singleton.mpr rfl)

/-- C2: `_format_duration` maps null and zero ticks to null and any other
integer ticks to `"{minutes}:{seconds}"` with `totalSeconds = floor(ticks /
10_000_000)`, `minutes = floor(totalSeconds / 60)` (no hour rollover, e.g.
61 minutes prints as `"61:00"`), and `seconds = totalSeconds mod 60`
zero-padded to exactly 2 characters; in particular 3_300_000_000 ↦ `"5:30"`
and 1_800_000_000 ↦ `"3:00"`. -/
theorem c2_format_duration :
    (∀ ticks, format_duration ticks = specFormatDuration ticks) ∧
    format_duration none = none ∧
    format_duration (some 0) = none ∧
    format_duration (some 3300000000) = some "5:30" ∧
    format_duration (some 1800000000) = some "3:00" ∧
    format_duration (some 36600000000) = some "61:00" ∧
    (∀ t : Int, (zeroPad2 (Int.emod (Int.fdiv t 10000000) 60)).length = 2) := by
  refine ⟨?_, rfl, rfl, by decide, by decide, by decide, ?_⟩
  · intro ticks
    cases ticks <;> rfl
  · intro t
    have h0 : 0 ≤ Int.emod (Int.fdiv t 10000000) 60 := Int.emod_nonneg _ (by decide)
    have h1 : Int.emod (Int.fdiv t 10000000) 60 < 60 := Int.emod_lt_of_pos _ (by decide)
    set s := Int.emod (Int.fdiv t 10000000) 60 with hs
    clear_value s
    interval_cases s <;> decide

/-- C3: the configuration gate passes exactly when base URL, API key and
user id are all non-empty; otherwise it names the first missing value in the
fixed order URL, API key, user id; and whenever it fails, every one of the
13 tools returns that error dict and issues zero HTTP calls. -/
theorem c3_config_gate :
    (∀ cfg : Config, check_config cfg = none ↔
        (cfg.url ≠ "" ∧ cfg.apiKey ≠ "" ∧ cfg.userId ≠ "")) ∧
    (∀ cfg : Config, cfg.url = "" →
        check_config cfg =
          some (JVal.obj [("error", JVal.str "JELLYFIN_URL not configured")])) ∧
    (∀ cfg : Config, cfg.url ≠ "" → cfg.apiKey = "" →
        check_config cfg =
          some (JVal.obj [("error", JVal.str "JELLYFIN_API_KEY not configured")])) ∧
    (∀ cfg : Config, cfg.url ≠ "" → cfg.apiKey ≠ "" → cfg.userId = "" →
        check_config cfg =
          some (JVal.obj [("error", JVal.str "JELLYFIN_USER_ID not configured")])) ∧
    (∀ (cfg : Config) (err : JVal), check_config cfg = some err →
      ∀ (oracle : Oracle) (q ty artist genre sort itemId : String) (limit : Int),
        search_media cfg oracle q ty limit = (Except.ok err, []) ∧
        list_albums cfg oracle artist genre sort limit = (Except.ok err, []) ∧
        list_artists cfg oracle limit = (Except.ok err, []) ∧
        get_album_tracks cfg oracle itemId = (Except.ok err, []) ∧
        get_artist_albums cfg oracle itemId = (Except.ok err, []) ∧
        list_genres cfg oracle = (Except.ok err, []) ∧
        get_recent cfg oracle ty limit = (Except.ok err, []) ∧
        get_favorites cfg oracle limit = (Except.ok err, []) ∧
        get_playlists cfg oracle limit = (Except.ok err, []) ∧
        list_movies cfg oracle genre sort limit = (Except.ok err, []) ∧
        list_series cfg oracle genre sort limit = (Except.ok err, []) ∧
        get_stream_url cfg oracle itemId = (Except.ok err, []) ∧
        library_stats cfg oracle = (Except.ok err, [])) := by
  refine ⟨?_, ?_, ?_, ?_, ?_⟩
  · intro cfg
    unfold check_config
    split_ifs with h1 h2 h3 <;> simp [*]
  · intro cfg h
    unfold check_config
    rw [if_pos h]
  · intro cfg h1 h2
    unfold check_config
    rw [if_neg h1, if_pos h2]
  · intro cfg h1 h2 h3
    unfold check_config
    rw [if_neg h1, if_neg h2, if_pos h3]
  · intro cfg err h oracle q ty artist genre sort itemId limit
    exact ⟨withConfigGate_some _ h, withConfigGate_some _ h, withConfigGate_some _ h,
      withConfigGate_some _ h, withConfigGate_some _ h, withConfigGate_some _ h,
      withConfigGate_some _ h, withConfigGate_some _ h, withConfigGate_some _ h,
      withConfigGate_some _ h, withConfigGate_some _ h, withConfigGate_some _ h,
      withConfigGate_some _ h⟩

/-- Witness for C3 at the configuration with an empty base URL: two of the
tools short-circuit with the URL error and an empty request list. -/
theorem c3_config_gate_witness :
    search_media cfgNoUrl nullOracle "q" "Audio" 5 =
      (Except.ok (JVal.obj [("error", JVal.str "JELLYFIN_URL not configured")]), []) ∧
    library_stats cfgNoUrl nullOracle =
      (Except.ok (JVal.obj [("error", JVal.str "JELLYFIN_URL not configured")]), []) := by
  have h := c3_config_gate.2.2.2.2 cfgNoUrl
    (JVal.obj [("error", JVal.str "JELLYFIN_URL not configured")]) rfl nullOracle
    "q" "Audio" "a" "g" "name" "i" 5
  exact ⟨h.1, h.2.2.2.2.2.2.2.2.2.2.2.2⟩

/-- C4: every limited tool clamps its integer limit into its inclusive
per-tool range and never errors on out-of-range values: the issued request
always carries a `Limit` within range, equal to the argument when the
argument is in range; in particular `search_media` with limit 200 requests
50 and `list_artists` with limit 500 requests 200, and the gate-passed tools
still issue exactly one GET for every limit. -/
theorem c4_limit_clamping :
    (∀ (cfg : Config) (q ty : String) (l : Int), ∃ L : Int,
        (searchMediaRequest cfg q ty l).params.lookup "Limit" = some (PVal.int L) ∧
        1 ≤ L ∧ L ≤ 50 ∧ (1 ≤ l → l ≤ 50 → L = l)) ∧
    (∀ (cfg : Config) (l : Int), ∃ L : Int,
        (listArtistsRequest cfg l).params.lookup "Limit" = some (PVal.int L) ∧
        1 ≤ L ∧ L ≤ 200 ∧ (1 ≤ l → l ≤ 200 → L = l)) ∧
    (∀ (cfg : Config) (artist genre sort : String) (l : Int), ∃ L : Int,
        (listAlbumsRequest cfg artist genre sort l).params.lookup "Limit" =
          some (PVal.int L) ∧
        1 ≤ L ∧ L ≤ 100 ∧ (1 ≤ l → l ≤ 100 → L = l)) ∧
    (∀ (cfg : Config) (ty : String) (l : Int), ∃ L : Int,
        (getRecentRequest cfg ty l).params.lookup "Limit" = some (PVal.int L) ∧
        1 ≤ L ∧ L ≤ 50 ∧ (1 ≤ l → l ≤ 50 → L = l)) ∧
    (∀ (cfg : Config) (l : Int), ∃ L : Int,
        (getFavoritesRequest cfg l).params.lookup "Limit" = some (PVal.int L) ∧
        1 ≤ L ∧ L ≤ 100 ∧ (1 ≤ l → l ≤ 100 → L = l)) ∧
    (∀ (cfg : Config) (l : Int), ∃ L : Int,
        (getPlaylistsRequest cfg l).params.lookup "Limit" = some (PVal.int L) ∧
        1 ≤ L ∧ L ≤ 100 ∧ (1 ≤ l → l ≤ 100 → L = l)) ∧
    (∀ (cfg : Config) (genre sort : String) (l : Int), ∃ L : Int,
        (listMoviesRequest cfg genre sort l).params.lookup "Limit" = some (PVal.int L) ∧
        1 ≤ L ∧ L ≤ 100 ∧ (1 ≤ l → l ≤ 100 → L = l)) ∧
    (∀ (cfg : Config) (genre sort : String) (l : Int), ∃ L : Int,
        (listSeriesRequest cfg genre sort l).params.lookup "Limit" = some (PVal.int L) ∧
        1 ≤ L ∧ L ≤ 100 ∧ (1 ≤ l → l ≤ 100 → L = l)) ∧
    (∀ (cfg : Config) (q ty : String),
        (searchMediaRequest cfg q ty 200).params.lookup "Limit" = some (PVal.int 50)) ∧
    (∀ cfg : Config,
        (listArtistsRequest cfg 500).params.lookup "Limit" = some (PVal.int 200)) ∧
    (∀ (cfg : Config) (oracle : Oracle) (q ty : String) (l : Int),
        check_config cfg = none →
        (search_media cfg oracle q ty l).2 = [searchMediaRequest cfg q ty l] ∧
        (list_artists cfg oracle l).2 = [listArtistsRequest cfg l]) := by
  refine ⟨?_, ?_, ?_, ?_, ?_, ?_, ?_, ?_, ?_, ?_, ?_⟩
  · intro cfg q ty l
    obtain ⟨ha, hb, hc⟩ := clamp_spec 1 50 l (by decide)
    exact ⟨max 1 (min l 50), rfl, ha, hb, hc⟩
  · intro cfg l
    obtain ⟨ha, hb, hc⟩ := clamp_spec 1 200 l (by decide)
    exact ⟨max 1 (min l 200), rfl, ha, hb, hc⟩
  · intro cfg artist genre sort l
    obtain ⟨ha, hb, hc⟩ := clamp_spec 1 100 l (by decide)
    exact ⟨max 1 (min l 100), rfl, ha, hb, hc⟩
  · intro cfg ty l
    obtain ⟨ha, hb, hc⟩ := clamp_spec 1 50 l (by decide)
    exact ⟨max 1 (min l 50), rfl, ha, hb, hc⟩
  · intro cfg l
    obtain ⟨ha, hb, hc⟩ := clamp_spec 1 100 l (by decide)
    exact ⟨max 1 (min l 100), rfl, ha, hb, hc⟩
  · intro cfg l
    obtain ⟨ha, hb, hc⟩ := clamp_spec 1 100 l (by decide)
    exact ⟨max 1 (min l 100), rfl, ha, hb, hc⟩
  · intro cfg genre sort l
    obtain ⟨ha, hb, hc⟩ := clamp_spec 1 100 l (by decide)
    exact ⟨max 1 (min l 100), rfl, ha, hb, hc⟩
  · intro cfg genre sort l
    obtain ⟨ha, hb, hc⟩ := clamp_spec 1 100 l (by decide)
    exact ⟨max 1 (min l 100), rfl, ha, hb, hc⟩
  · intro cfg q ty
    rfl
  · intro cfg
    rfl
  · intro cfg oracle q ty l h
    constructor
    · show (withConfigGate cfg _).2 = _
      rw [withConfigGate_none _ h]
    · show (withConfigGate cfg _).2 = _
      rw [withConfigGate_none _ h]

/-- Witness for C4: the concrete clamp examples and the single GET issued by
`list_artists` under the demo configuration. -/
theorem c4_limit_clamping_witness :
    (searchMediaRequest cfgDemo "x" "Audio" 200).params.lookup "Limit" =
      some (PVal.int 50) ∧
    (listArtistsRequest cfgDemo 500).params.lookup "Limit" = some (PVal.int 200) ∧
    (list_artists cfgDemo nullOracle 500).2 = [listArtistsRequest cfgDemo 500] :=
  ⟨c4_limit_clamping.2.2.2.2.2.2.2.2.1 cfgDemo "x" "Audio",
   c4_limit_clamping.2.2.2.2.2.2.2.2.2.1 cfgDemo,
   (c4_limit_clamping.2.2.2.2.2.2.2.2.2.2 cfgDemo nullOracle "x" "Audio" 500 rfl).2⟩

/-- C5: on a bare-array upstream response, `get_recent` returns the envelope
whose `total` is the length of the projected item list (which equals the
length of the upstream array), never a server-reported count. -/
theorem c5_get_recent_bare_array :
    ∀ (cfg : Config) (oracle : Oracle) (ty : String) (l : Int) (xs items : List JVal),
      check_config cfg = none →
      oracle (getRecentRequest cfg ty l) = JVal.arr xs →
      projectList cfg ((recentFieldMap.lookup ty).getD ["id", "name", "type", "year"]) xs =
        Except.ok items →
      get_recent cfg oracle ty l =
        (Except.ok (JVal.obj [("total", JVal.int items.length), ("items", JVal.arr items)]),
         [getRecentRequest cfg ty l]) ∧
      items.length = xs.length := by
  intro cfg oracle ty l xs items hc ho hp
  refine ⟨?_, projectList_length cfg _ xs items hp⟩
  have h1 : get_recent cfg oracle ty l =
      (recentBody cfg (oracle (getRecentRequest cfg ty l))
        ((recentFieldMap.lookup ty).getD ["id", "name", "type", "year"]),
       [getRecentRequest cfg ty l]) := withConfigGate_none _ hc
  rw [h1, ho]
  simp only [recentBody, recentRawItems, hp]

/-- Witness for C5: one bare-array song response under the demo
configuration; `total` is 1, the length of the returned list. -/
theorem c5_get_recent_bare_array_witness :
    get_recent cfgDemo bareArrayOracle "Audio" 3 =
      (Except.ok (JVal.obj [("total", JVal.int 1), ("items", JVal.arr [recentSongItem])]),
       [getRecentRequest cfgDemo "Audio" 3]) ∧
    ([recentSongItem] : List JVal).length = ([rawSong] : List JVal).length :=
  c5_get_recent_bare_array cfgDemo bareArrayOracle "Audio" 3 [rawSong] [recentSongItem]
    rfl rfl rfl

/-- C6: `list_albums` chooses the server sort field through the shared table
(`name`↦`SortName`, `added`↦`DateCreated`, `year`↦`PremiereDate`,
`rating`↦`CommunityRating`, `random`↦`Random`), falls back to `SortName` on
unrecognized names, and sorts `Descending` exactly for `added` and `year`. -/
theorem c6_list_albums_sort :
    (∀ (cfg : Config) (artist genre : String) (l : Int),
        (listAlbumsRequest cfg artist genre "name" l).params.lookup "SortBy" =
            some (PVal.str "SortName") ∧
        (listAlbumsRequest cfg artist genre "added" l).params.lookup "SortBy" =
            some (PVal.str "DateCreated") ∧
        (listAlbumsRequest cfg artist genre "year" l).params.lookup "SortBy" =
            some (PVal.str "PremiereDate") ∧
        (listAlbumsRequest cfg artist genre "rating" l).params.lookup "SortBy" =
            some (PVal.str "CommunityRating") ∧
        (listAlbumsRequest cfg artist genre "random" l).params.lookup "SortBy" =
            some (PVal.str "Random")) ∧
    (∀ (cfg : Config) (artist genre sort : String) (l : Int),
        sort ∉ (["name", "added", "year", "rating", "random"] : List String) →
        (listAlbumsRequest cfg artist genre sort l).params.lookup "SortBy" =
          some (PVal.str "SortName")) ∧
    (∀ (cfg : Config) (artist genre sort : String) (l : Int),
        (listAlbumsRequest cfg artist genre sort l).params.lookup "SortOrder" =
          some (PVal.str
            (if sort = "added" ∨ sort = "year" then "Descending" else "Ascending"))) := by
  have hbase : ∀ (cfg : Config) (artist genre sort : String) (l : Int),
      (listAlbumsRequest cfg artist genre sort l).params.lookup "SortBy" =
        some (PVal.str ((SORT_MAP.lookup sort).getD "SortName")) :=
    fun cfg artist genre sort l => rfl
  refine ⟨?_, ?_, ?_⟩
  · intro cfg artist genre l
    exact ⟨rfl, rfl, rfl, rfl, rfl⟩
  · intro cfg artist genre sort l hns
    have h1 : sort ≠ "name" := fun he => hns (by rw [he]; decide)
    have h2 : sort ≠ "added" := fun he => hns (by rw [he]; decide)
    have h3 : sort ≠ "year" := fun he => hns (by rw [he]; decide)
    have h4 : sort ≠ "rating" := fun he => hns (by rw [he]; decide)
    have h5 : sort ≠ "random" := fun he => hns (by rw [he]; decide)
    rw [hbase]
    have e1 : (sort == "name") = false := beq_eq_false_iff_ne.mpr h1
    have e2 : (sort == "added") = false := beq_eq_false_iff_ne.mpr h2
    have e3 : (sort == "year") = false := beq_eq_false_iff_ne.mpr h3
    have e4 : (sort == "rating") = false := beq_eq_false_iff_ne.mpr h4
    have e5 : (sort == "random") = false := beq_eq_false_iff_ne.mpr h5
    simp [SORT_MAP, List.lookup, e1, e2, e3, e4, e5]
  · intro cfg artist genre sort l
    rfl

/-- Witness for C6: an unrecognized sort name falls back to `SortName`, and
`sort="year"` yields `Descending`. -/
theorem c6_list_albums_sort_witness :
    (listAlbumsRequest cfgDemo "" "" "zzz" 50).params.lookup "SortBy" =
      some (PVal.str "SortName") ∧
    (listAlbumsRequest cfgDemo "" "" "year" 50).params.lookup "SortOrder" =
      some (PVal.str "Descending") :=
  ⟨c6_list_albums_sort.2.1 cfgDemo "" "" "zzz" 50 (by decide),
   c6_list_albums_sort.2.2 cfgDemo "" "" "year" 50⟩

/-- C7 (amended): the `api_stream` field extracts to
`"{baseUrl}/Audio/{id}/universal?api_key={apiKey}"` whenever `raw.Id` is
present and truthy (in particular any non-empty string id), and is absent
whenever `raw.Id` is missing, null, or falsy (e.g. the empty string). -/
theorem c7_api_stream_amended :
    (∀ (cfg : Config) (kvs : List (String × JVal)) (s : String),
        kvs.lookup "Id" = some (JVal.str s) → s ≠ "" →
        format_item cfg (JVal.obj kvs) ["api_stream"] =
          Except.ok [("api_stream",
            JVal.str (cfg.url ++ "/Audio/" ++ s ++ "/universal?api_key=" ++ cfg.apiKey))]) ∧
    (∀ (cfg : Config) (kvs : List (String × JVal)),
        jTruthy ((kvs.lookup "Id").getD JVal.null) = false →
        format_item cfg (JVal.obj kvs) ["api_stream"] = Except.ok []) := by
  have hex : ∀ (cfg : Config) (kvs : List (String × JVal)),
      extractors cfg (JVal.obj kvs) "api_stream" =
        Except.ok (if jTruthy ((kvs.lookup "Id").getD JVal.null) then
          JVal.str (cfg.url ++ "/Audio/" ++ pyStr ((kvs.lookup "Id").getD JVal.null) ++
            "/universal?api_key=" ++ cfg.apiKey)
        else JVal.null) :=
    fun cfg kvs => rfl
  constructor
  · intro cfg kvs s hId hs
    have hx := hex cfg kvs
    rw [hId] at hx
    simp only [Option.getD_some] at hx
    rw [show jTruthy (JVal.str s) = true by simp [jTruthy, hs]] at hx
    simp only [if_true, pyStr] at hx
    simp [format_item, format_item_go, hx, isNull, dictInsert, FIELD_NAMES]
  · intro cfg kvs hfalse
    have hx := hex cfg kvs
    rw [hfalse] at hx
    simp only [Bool.false_eq_true, if_false] at hx
    exact (format_item_go_skip ([] : List (String × JVal)) ([] : List String)
      (by decide) hx)

/-- C7 counterexample: the claim as stated fails — here `raw.Id` is present
(the empty string) yet `_format_item` omits `api_stream`. -/
theorem c7_api_stream_counterexample :
    format_item cfgDemo rawEmptyId ["api_stream"] = Except.ok [] ∧
    (List.lookup "Id" [("Id", JVal.str "")]).isSome = true :=
  ⟨rfl, rfl⟩

/-- Witness for the amended C7 at a concrete item with a non-empty id. -/
theorem c7_api_stream_amended_witness :
    format_item cfgDemo (JVal.obj [("Id", JVal.str "7")]) ["api_stream"] =
      Except.ok [("api_stream",
        JVal.str (cfgDemo.url ++ "/Audio/" ++ "7" ++ "/universal?api_key=" ++
          cfgDemo.apiKey))] :=
  c7_api_stream_amended.1 cfgDemo [("Id", JVal.str "7")] "7" rfl (by decide)

/-- C8 (amended): for every raw item and duplicate-free requested-fields
sequence, the insertion order of the keys `_format_item` returns is exactly
the requested sequence filtered to the fields whose extracted value is
present (a duplicated request would collapse to one key, see the
counterexample). -/
theorem c8_key_order (cfg : Config) (raw : JVal) (fields : List String)
    (out : List (String × JVal)) (hnd : fields.Nodup)
    (h : format_item cfg raw fields = Except.ok out) :
    out.map Prod.fst = fields.filter (presentField cfg raw) := by
  have hres := format_item_go_keys cfg raw fields [] out hnd (fun f _ => rfl) h
  simpa using hres

/-- C8 counterexample: the claim as stated fails on a duplicated requested
name — `["id", "id"]` produces the single key `id` while the filtered
requested sequence still lists it twice. -/
theorem c8_key_order_counterexample :
    format_item cfgDemo rawIdOnly ["id", "id"] = Except.ok [("id", JVal.str "x")] ∧
    List.map Prod.fst [(("id" : String), JVal.str "x")] ≠
      List.filter (presentField cfgDemo rawIdOnly) ["id", "id"] :=
  ⟨rfl, by decide⟩

/-- Witness for the amended C8 on a duplicate-free request with one unknown
name. -/
theorem c8_key_order_witness :
    List.map Prod.fst [(("id" : String), JVal.str "x")] =
      List.filter (presentField cfgDemo rawIdOnly) ["id", "bogus"] :=
  c8_key_order cfgDemo rawIdOnly ["id", "bogus"] [("id", JVal.str "x")] (by decide) rfl

/-- C9: `list_genres` builds each output item as `(dict "id" raw.Id)
("name" raw.Name)` directly, bypassing `_format_item`, so an item lacking
`Id` or `Name` still gets the key with value null — unlike the projection
layer, which omits such keys. -/
theorem c9_list_genres_nulls :
    (∀ kvs : List (String × JVal),
        genreProj (JVal.obj kvs) =
          Except.ok (JVal.obj [("id", (kvs.lookup "Id").getD JVal.null),
            ("name", (kvs.lookup "Name").getD JVal.null)])) ∧
    (∀ (cfg : Config) (kvs : List (String × JVal)),
        kvs.lookup "Id" = none → kvs.lookup "Name" = none →
        genreProj (JVal.obj kvs) =
            Except.ok (JVal.obj [("id", JVal.null), ("name", JVal.null)]) ∧
          format_item cfg (JVal.obj kvs) ["id", "name"] = Except.ok []) ∧
    (∀ (cfg : Config) (oracle : Oracle) (kvs : List (String × JVal)) (xs items : List JVal),
        check_config cfg = none →
        oracle (listGenresRequest cfg) = JVal.obj kvs →
        (kvs.lookup "Items").getD (JVal.arr []) = JVal.arr xs →
        genreProjList xs = Except.ok items →
        list_genres cfg oracle =
          (Except.ok (JVal.obj
            [("total", (kvs.lookup "TotalRecordCount").getD (JVal.int 0)),
             ("items", JVal.arr items)]), [listGenresRequest cfg])) := by
  refine ⟨fun kvs => rfl, ?_, ?_⟩
  · intro cfg kvs h1 h2
    refine ⟨?_, ?_⟩
    · have base : genreProj (JVal.obj kvs) =
          Except.ok (JVal.obj [("id", (kvs.lookup "Id").getD JVal.null),
            ("name", (kvs.lookup "Name").getD JVal.null)]) := rfl
      rw [base, h1, h2]
      rfl
    · have hexId : extractors cfg (JVal.obj kvs) "id" = Except.ok JVal.null := by
        have hbase : extractors cfg (JVal.obj kvs) "id" =
            Except.ok ((kvs.lookup "Id").getD JVal.null) := rfl
        rw [hbase, h1]
        rfl
      have hexName : extractors cfg (JVal.obj kvs) "name" = Except.ok JVal.null := by
        have hbase : extractors cfg (JVal.obj kvs) "name" =
            Except.ok ((kvs.lookup "Name").getD JVal.null) := rfl
        rw [hbase, h2]
        rfl
      have s1 := format_item_go_skip ([] : List (String × JVal)) ["name"]
        (by decide) hexId
      have s2 := format_item_go_skip ([] : List (String × JVal)) ([] : List String)
        (by decide) hexName
      exact s1.trans s2
  · intro cfg oracle kvs xs items hc ho hxs hitems
    have h1 : list_genres cfg oracle =
        ((match pyGetD (oracle (listGenresRequest cfg)) "Items" (JVal.arr []) with
          | .error e => .error e
          | .ok itemsJ =>
            match asIter itemsJ with
            | .error e => .error e
            | .ok raws =>
              match genreProjList raws with
              | .error e => .error e
              | .ok items =>
                match pyGetD (oracle (listGenresRequest cfg)) "TotalRecordCount" (JVal.int 0) with
                | .error e => .error e
                | .ok total => .ok (JVal.obj [("total", total), ("items", JVal.arr items)])),
         [listGenresRequest cfg]) := withConfigGate_none _ hc
    rw [h1, ho]
    simp only [pyGetD, hxs, asIter, hitems]

/-- Witness for C9: a genre item with no `Id` key flows through
`list_genres` into the output with `id` explicitly null. -/
theorem c9_list_genres_nulls_witness :
    list_genres cfgDemo genresOracle =
      (Except.ok (JVal.obj [("total", JVal.int 5),
        ("items", JVal.arr [JVal.obj [("id", JVal.null), ("name", JVal.str "Rock")]])]),
       [listGenresRequest cfgDemo]) :=
  c9_list_genres_nulls.2.2 cfgDemo genresOracle
    [("Items", JVal.arr [JVal.obj [("Name", JVal.str "Rock")]]),
     ("TotalRecordCount", JVal.int 5)]
    [JVal.obj [("Name", JVal.str "Rock")]]
    [JVal.obj [("id", JVal.null), ("name", JVal.str "Rock")]]
    rfl rfl rfl rfl

/-- C10: `get_recent` also accepts an envelope-shaped (object) upstream
response, projecting its `Items` list (the empty list when `Items` is
absent), and still reports `total` as the length of the projected list. -/
theorem c10_get_recent_envelope :
    ∀ (cfg : Config) (oracle : Oracle) (ty : String) (l : Int)
      (kvs : List (String × JVal)) (xs items : List JVal),
      check_config cfg = none →
      oracle (getRecentRequest cfg ty l) = JVal.obj kvs →
      (kvs.lookup "Items").getD (JVal.arr []) = JVal.arr xs →
      projectList cfg ((recentFieldMap.lookup ty).getD ["id", "name", "type", "year"]) xs =
        Except.ok items →
      get_recent cfg oracle ty l =
        (Except.ok (JVal.obj [("total", JVal.int items.length), ("items", JVal.arr items)]),
         [getRecentRequest cfg ty l]) := by
  intro cfg oracle ty l kvs xs items hc ho hxs hp
  have h1 : get_recent cfg oracle ty l =
      (recentBody cfg (oracle (getRecentRequest cfg ty l))
        ((recentFieldMap.lookup ty).getD ["id", "name", "type", "year"]),
       [getRecentRequest cfg ty l]) := withConfigGate_none _ hc
  rw [h1, ho]
  simp only [recentBody, recentRawItems, pyGetD, hxs, asIter, hp]

/-- Witness for C10: an envelope response whose reported count (99)
disagrees with the single returned item; `get_recent` reports 1. -/
theorem c10_get_recent_envelope_witness :
    get_recent cfgDemo envelopeOracle "Audio" 3 =
      (Except.ok (JVal.obj [("total", JVal.int 1), ("items", JVal.arr [recentSongItem])]),
       [getRecentRequest cfgDemo "Audio" 3]) :=
  c10_get_recent_envelope cfgDemo envelopeOracle "Audio" 3
    [("Items", JVal.arr [rawSong]), ("TotalRecordCount", JVal.int 99)]
    [rawSong] [recentSongItem] rfl rfl rfl rfl

end Renfield
